import Mathlib

/-!
Shallow embedding of the Pulse-Coding review scraper (two Python scripts,
`src/scraper.py` and `src/review_scraper.py`), together with proofs of the
spec claims about its date normalization, per-candidate classification and
pagination behaviour.

Timestamps are modelled as `Int` minutes since the Unix epoch (the Python
code compares `datetime` values, which are totally ordered; minute
granularity suffices for every date format the scraper handles).  Calendar
dates `(y, m, d)` are converted to epoch days with the standard civil
calendar formula; midnight of a calendar day is `epoch day * 1440` minutes.
The `"%Y-%m-%d"` strings produced by `strftime` are represented by the epoch
day itself (the formatting is injective on days).

The browser automation surface (Playwright) is external: a DOM query result
is modelled by the data it delivers to the scraper (per-card field texts and
attributes, per-page next-button clickability), exactly the interface the
controller consumes.
-/

/-- Minutes per civil day. -/
def minutesPerDay : Int := 1440

/-- Epoch day count of the civil date `y-m-d` (standard days-from-civil
formula, floor division; `daysFromCivil 1970 1 1 = 0`). -/
def daysFromCivil (y m d : Int) : Int :=
  let y2 := if m ≤ 2 then y - 1 else y
  let era := Int.ediv y2 400
  let yoe := y2 - era * 400
  let mp := Int.emod (m + 9) 12
  let doy := Int.ediv (153 * mp + 2) 5 + d - 1
  let doe := yoe * 365 + Int.ediv yoe 4 - Int.ediv yoe 100 + doy
  era * 146097 + doe - 719468

/-- Midnight of the given epoch day, in minutes since the epoch.  This is the
timestamp `datetime.strptime(s, "%Y-%m-%d")` or a date-only parse produces. -/
def mkDT (epochDay : Int) : Int := epochDay * minutesPerDay

/-- Model of `iso_date` (src/scraper.py line 51) and of
`review_date.strftime("%Y-%m-%d")` (src/review_scraper.py line 112): the
formatted `"%Y-%m-%d"` string is represented by the calendar (epoch) day of
the timestamp, discarding the time of day. -/
def iso_date (dt : Int) : Int := dt / minutesPerDay

/-- Model of `within_range` (src/scraper.py lines 209-210):
`start <= dt <= end` on datetimes. -/
def within_range (dt start endd : Int) : Prop := start ≤ dt ∧ dt ≤ endd

instance (dt start endd : Int) : Decidable (within_range dt start endd) :=
  inferInstanceAs (Decidable (_ ∧ _))

/-- Lowercase a single ASCII character (model of Python `str.lower` /
`str.casefold` on the ASCII inputs the scraper handles). -/
def lowerChar (c : Char) : Char :=
  if 65 ≤ c.toNat ∧ c.toNat ≤ 90 then Char.ofNat (c.toNat + 32) else c

/-- Model of Python `str.lower()`. -/
def toLowerStr (s : String) : String := String.mk (s.data.map lowerChar)

/-- ASCII whitespace test used by the `str.strip()` model. -/
def isSpaceCh (c : Char) : Bool :=
  c = ' ' || c = '\t' || c = '\n' || c = '\r'

/-- Strip leading and trailing whitespace from a character list. -/
def trimChars (l : List Char) : List Char :=
  ((l.dropWhile isSpaceCh).reverse.dropWhile isSpaceCh).reverse

/-- Model of Python `str.strip()`. -/
def pyStrip (s : String) : String := String.mk (trimChars s.data)

/-- Replace every (non-overlapping, left-to-right) occurrence of `pat` by
`repl`; fuel-based structural recursion (each step consumes at least one
character, so fuel `≥` list length makes the fuel-exhausted branch
unreachable). -/
def replaceAllAux (pat repl : List Char) : Nat → List Char → List Char
  | _, [] => []
  | 0, l => l
  | fuel + 1, c :: rest =>
    if pat.isPrefixOf (c :: rest) then
      repl ++ replaceAllAux pat repl fuel (rest.drop (pat.length - 1))
    else
      c :: replaceAllAux pat repl fuel rest

/-- Replace every (non-overlapping, left-to-right) occurrence of `pat` by
`repl`, the semantics of Python `str.replace`. -/
def replaceAll (pat repl l : List Char) : List Char :=
  replaceAllAux pat repl l.length l

/-- Model of Python `str.replace(pat, repl)`. -/
def pyReplace (s pat repl : String) : String :=
  String.mk (replaceAll pat.data repl.data s.data)

/-- Token separators recognised by the date-string tokenizer: whitespace and
commas. -/
def isSepCh (c : Char) : Bool := isSpaceCh c || c = ','

/-- Split a character list on a separator predicate, dropping empty pieces
(accumulator holds the current token reversed). -/
def splitBy (sep : Char → Bool) : List Char → List Char → List (List Char)
  | [], acc => if acc.isEmpty then [] else [acc.reverse]
  | c :: rest, acc =>
    if sep c then
      if acc.isEmpty then splitBy sep rest []
      else acc.reverse :: splitBy sep rest []
    else splitBy sep rest (c :: acc)

/-- Lowercased whitespace/comma-separated tokens of a date string. -/
def tokens (s : String) : List String :=
  (splitBy isSepCh (s.data.map lowerChar) []).map String.mk

/-- ASCII digit test. -/
def isDigitCh (c : Char) : Bool := 48 ≤ c.toNat && c.toNat ≤ 57

/-- Numeric value of an all-digit token, `none` otherwise. -/
def natOfToken (s : String) : Option Int :=
  if s.data ≠ [] ∧ s.data.all isDigitCh then
    some (s.data.foldl (fun n c => 10 * n + (Int.ofNat c.toNat - 48)) 0)
  else none

/-- English month names and their standard three-letter abbreviations. -/
def monthNum (s : String) : Option Int :=
  match s with
  | "january" | "jan" => some 1
  | "february" | "feb" => some 2
  | "march" | "mar" => some 3
  | "april" | "apr" => some 4
  | "may" => some 5
  | "june" | "jun" => some 6
  | "july" | "jul" => some 7
  | "august" | "aug" => some 8
  | "september" | "sep" => some 9
  | "october" | "oct" => some 10
  | "november" | "nov" => some 11
  | "december" | "dec" => some 12
  | _ => none

/-- Dash character test, for ISO `YYYY-MM-DD` tokens. -/
def isDashCh (c : Char) : Bool := c = '-'

/-- Parse a `YYYY-MM-DD` string to the midnight timestamp of that day, with
the month/day range validation both `datetime.strptime(s, "%Y-%m-%d")` and
the ISO branch of the external date libraries perform.  Returns `none`
(modelling a raised `ValueError`) on any other shape. -/
def ymdDashes (s : String) : Option Int :=
  match (splitBy isDashCh s.data []).map String.mk with
  | [y, m, d] =>
    match natOfToken y, natOfToken m, natOfToken d with
    | some yn, some mn, some dn =>
      if 1 ≤ mn ∧ mn ≤ 12 ∧ 1 ≤ dn ∧ dn ≤ 31 then
        some (mkDT (daysFromCivil yn mn dn))
      else none
    | _, _, _ => none
  | _ => none

/-- Model of `datetime.strptime(s, "%Y-%m-%d")` as used on the caller's
`start_date`/`end_date` arguments (src/scraper.py lines 227-228,
src/review_scraper.py lines 53-54); `none` models the `ValueError` raised on
a malformed argument. -/
def strptime_ymd (s : String) : Option Int := ymdDashes s

/-- Absolute-date parse over the token list, shared model of the external
`dateparser.parse` and `dateutil.parser.parse` libraries on the absolute
formats the scraped pages use: month-name dates in either order
("march 3, 2024" / "3 march 2024") and ISO `YYYY-MM-DD` tokens.  Any token
that is neither a recognised month name nor a number makes the whole parse
fail, which is how both libraries treat unknown words (their token
classifiers reject strings containing unrecognised alphabetic tokens). -/
def parseAbsTokens : List String → Option Int
  | [t] => ymdDashes t
  | [a, b, y] =>
    match monthNum a, natOfToken b, natOfToken y with
    | some m, some dn, some yn =>
      if 1 ≤ dn ∧ dn ≤ 31 then some (mkDT (daysFromCivil yn m dn)) else none
    | _, _, _ =>
      match natOfToken a, monthNum b, natOfToken y with
      | some dn, some m, some yn =>
        if 1 ≤ dn ∧ dn ≤ 31 then some (mkDT (daysFromCivil yn m dn)) else none
      | _, _, _ => none
  | _ => none

/-- Minutes per unit for relative date expressions. -/
def unitMinutes : String → Option Int
  | "minute" | "minutes" => some 1
  | "hour" | "hours" => some 60
  | "day" | "days" => some minutesPerDay
  | "week" | "weeks" => some (7 * minutesPerDay)
  | _ => none

/-- Relative-date parse over the token list ("N units ago"), returning the
number of minutes to subtract from the reference instant.  This is the only
date form whose value depends on the current time. -/
def parseRelTokens : List String → Option Int
  | [n, u, "ago"] =>
    match natOfToken n, unitMinutes u with
    | some k, some um => some (k * um)
    | _, _ => none
  | _ => none

/-- Model of the external `dateparser.parse(s, settings={RELATIVE_BASE:
now, ...})` call made by `parse_date_str` (src/scraper.py lines 40-47):
relative expressions are resolved against the relative base, absolute
expressions are parsed directly, and anything else (including strings with
unrecognised extra words) yields `None`. -/
def dateparse (s : String) (relativeBase : Int) : Option Int :=
  match parseRelTokens (tokens s) with
  | some delta => some (relativeBase - delta)
  | none => parseAbsTokens (tokens s)

/-- Model of `parse_date_str` (src/scraper.py lines 36-48): empty (or
missing) input short-circuits to `None`; otherwise the external dateparser
library is called with `RELATIVE_BASE` set to the current UTC time. -/
def parse_date_str (s : String) (now : Int) : Option Int :=
  if s = "" then none else dateparse s now

/-- Model of the external `dateutil.parser.parse` call made by `parse_date`
(src/review_scraper.py line 45): absolute formats only — dateutil has no
relative-expression support, so "2 days ago" (and any unparseable string)
raises, modelled by `none`. -/
def dateutil_parse (s : String) : Option Int := parseAbsTokens (tokens s)

/-- Model of `parse_date` (src/review_scraper.py lines 41-47): strips the
"Written on"/"Posted on" prefixes, delegates to `dateutil.parser.parse`,
and on ANY failure falls back to `datetime.now()` — the current timestamp,
never an absent value. -/
def parse_date (date_str : String) (now : Int) : Int :=
  let clean := pyStrip (pyReplace (pyReplace date_str "Written on" "") "Posted on" "")
  match dateutil_parse clean with
  | some dt => dt
  | none => now

/-- Model of `Selectors` (src/scraper.py lines 55-62): the per-source CSS
query configuration.  `rating` and `next_btn` are optional in the scraper.py
dataclass; review_scraper.py supplies all six entries, modelled by wrapping
its values in `some`. -/
structure Selectors where
  review_card : String
  title : String
  body : String
  date : String
  rating : Option String
  next_btn : Option String
deriving DecidableEq

/-- Model of `get_selectors` (src/scraper.py lines 65-94). -/
def get_selectors (source : String) : Option Selectors :=
  let s := toLowerStr source
  if s = "g2" then
    some {
      review_card := "div.paper, div.review",
      title := "div.review-content__title a, a.review-title, h3, h4",
      body := "[itemprop=\x27reviewBody\x27], div.review-body, div.review-content__body",
      date := "time, span.time-ago, span.display-date",
      rating := some "meta[itemprop=\x27ratingValue\x27], [data-test=\x27star-rating\x27], div.stars, span[aria-label*=\x27star\x27]",
      next_btn := some "a[aria-label=\x27Next\x27], a.pagination__next, a[rel=\x27next\x27], button[aria-label=\x27Next\x27]" }
  else if s = "capterra" then
    some {
      review_card := "div.review-card, article[data-testid=\x27review-card\x27], div[data-automation=\x27review-card\x27]",
      title := "h3.review-card-title, h3[data-testid=\x27review-title\x27], h3",
      body := "div.review-card-text, div[data-testid=\x27review-text\x27], [itemprop=\x27reviewBody\x27]",
      date := "div.review-card-date, time, span[data-testid=\x27review-date\x27]",
      rating := some "div.star-rating, [data-testid=\x27star-rating\x27], span[aria-label*=\x27star\x27]",
      next_btn := some "button[aria-label=\x27Next\x27], button.pagination-next, a[rel=\x27next\x27]" }
  else if s = "sourceforge" then
    some {
      review_card := "section.topic, div.review, article.review",
      title := "p.lead, h3, h4, a.title",
      body := "div.content, div.review-body, div.body",
      date := "span.posted-date, time, span.date",
      rating := some "div.stars, span[aria-label*=\x27star\x27], [itemprop=\x27ratingValue\x27]",
      next_btn := some "a.pagination-next, a[rel=\x27next\x27], a[aria-label=\x27Next\x27], button[aria-label=\x27Next\x27]" }
  else none

/-- Model of `get_selectors` in src/review_scraper.py (lines 10-39).  Note
the g2/capterra keys are full URLs there, while every caller passes the
short identifiers "g2"/"capterra"/"sourceforge"; only "sourceforge"
resolves. -/
def rs_get_selectors (source : String) : Option Selectors :=
  if source = "https://www.g2.com/" then
    some {
      review_card := "div.paper",
      title := "div.review-content__title a",
      body := "div[itemprop=\"reviewBody\"]",
      date := "time",
      rating := some "meta[itemprop=\"ratingValue\"]",
      next_btn := some "a.pagination__named-link.js-log-click" }
  else if source = "https://www.capterra.in/" then
    some {
      review_card := "div.review-card",
      title := "h3.review-card-title",
      body := "div.review-card-text",
      date := "div.review-card-date",
      rating := some "div.star-rating",
      next_btn := some "button.pagination-next" }
  else if source = "sourceforge" then
    some {
      review_card := "section.topic",
      title := "p.lead",
      body := "div.content",
      date := "span.posted-date",
      rating := some "div.stars",
      next_btn := some "a.pagination-next" }
  else none

/-- One review-card DOM element, modelled by the data the automation surface
delivers for it.  `dateEl = none` means the date query finds no element;
`dateEl = some a` means it finds one whose `datetime` attribute is `a`
(`some none` = element present, attribute absent) and whose inner text is
`dateText`.  `titleEl`/`bodyEl` record whether the title/body queries find
an element with inner text `titleText`/`bodyText`.  `ratingRaw` is the
string `extract_rating_safe` (src/scraper.py lines 170-192) computes from
the rating element for this card ("" when the element is absent or nothing
usable is found).  `raises` models a Playwright exception (e.g. a stale
element handle) thrown while this candidate is processed inside the
per-card `try` block. -/
structure Card where
  dateEl : Option (Option String)
  dateText : String
  titleEl : Bool
  titleText : String
  bodyEl : Bool
  bodyText : String
  ratingRaw : String
  raises : Bool
deriving DecidableEq

/-- Model of `extract_text_safe` (src/scraper.py lines 159-167): empty
string when the element is missing (or any error occurs), otherwise the
stripped inner text. -/
def extract_text_safe (present : Bool) (txt : String) : String :=
  if present then pyStrip txt else ""

/-- Model of `extract_rating_safe` (src/scraper.py lines 170-192) at the
configuration level: "" when no rating selector is configured, otherwise
whatever the DOM-level extraction produced for this card. -/
def extract_rating_safe (sel : Option String) (c : Card) : String :=
  match sel with
  | none => ""
  | some _ => c.ratingRaw

/-- The raw date text of a card as computed in src/scraper.py lines 301-305:
the visible text of the date element, falling back to the `datetime`
attribute when the text is empty (a missing attribute yields Python `None`,
which `parse_date_str` treats like the empty string). -/
def date_raw (c : Card) : String :=
  let t := match c.dateEl with
    | none => ""
    | some _ => pyStrip c.dateText
  if t ≠ "" then t
  else
    match c.dateEl with
    | some (some a) => a
    | _ => ""

/-- Model of `ReviewRecord`, the persisted output unit (the dict built in
src/scraper.py lines 320-328 / src/review_scraper.py lines 108-114).
`date` holds the epoch day standing for the `"%Y-%m-%d"` string. -/
structure ReviewRecord where
  source : String
  title : String
  description : String
  date : Int
  rating : String
deriving DecidableEq

/-- One listing page of a fixed page fixture: the review cards the card
query returns, whether clicking the configured next-page control succeeds
(`try_click`, src/scraper.py lines 124-134 / the `is_enabled` check in
src/review_scraper.py lines 124-127), and whether the page-ready wait for a
review card times out (src/scraper.py lines 287-291). -/
structure PageFix where
  cards : List Card
  nextClickable : Bool
  waitTimeout : Bool
deriving DecidableEq

/-- The record dict built for an accepted candidate in src/scraper.py lines
316-328: lowercased source, independently defaulted title/body, formatted
date, and the rating with its `or "N/A"` fallback. -/
def buildRecord (sels : Selectors) (source : String) (c : Card) (dt : Int) :
    ReviewRecord :=
  { source := toLowerStr source,
    title := extract_text_safe c.titleEl c.titleText,
    description := extract_text_safe c.bodyEl c.bodyText,
    date := iso_date dt,
    rating :=
      let r := extract_rating_safe sels.rating c
      if r = "" then "N/A" else r }

/-- Per-candidate classification step of the scraper.py controller
(src/scraper.py lines 299-331), acting on the state
`(results, old_review_reached)`.  A card that raises is skipped whole; an
unparseable date skips the card; a date before `start` only sets the flag
and continues; an in-range date appends a record whose rating falls back to
"N/A" when empty. -/
def processCard (sels : Selectors) (source : String) (start endd now : Int)
    (st : List ReviewRecord × Bool) (c : Card) : List ReviewRecord × Bool :=
  if c.raises then st
  else
    match parse_date_str (date_raw c) now with
    | none => st
    | some dt =>
      if dt < start then (st.1, true)
      else if within_range dt start endd then
        (st.1 ++ [buildRecord sels source c dt], st.2)
      else st

/-- The `for card in cards` loop of src/scraper.py lines 299-331. -/
def processCards (sels : Selectors) (source : String) (start endd now : Int)
    (cards : List Card) (st : List ReviewRecord × Bool) :
    List ReviewRecord × Bool :=
  cards.foldl (processCard sels source start endd now) st

/-- The page-by-page crawl loop of src/scraper.py lines 283-351: wait for
cards (timeout or an empty card list ends the crawl), classify every card,
stop when `old_review_reached` is set, otherwise advance iff a next-page
control is configured and clicking it succeeds.  Returns the collected
records and the final `page_index`.  An exhausted fixture list means no
further cards appear, i.e. the next page-ready wait times out. -/
def runPages (sels : Selectors) (source : String) (start endd now : Int) :
    List PageFix → Nat → List ReviewRecord × Bool → List ReviewRecord × Nat
  | [], idx, st => (st.1, idx)
  | pg :: rest, idx, st =>
    if pg.waitTimeout then (st.1, idx)
    else if pg.cards.isEmpty then (st.1, idx)
    else
      if (processCards sels source start endd now pg.cards st).2 then
        ((processCards sels source start endd now pg.cards st).1, idx)
      else if sels.next_btn.isSome && pg.nextClickable then
        runPages sels source start endd now rest (idx + 1)
          (processCards sels source start endd now pg.cards st)
      else ((processCards sels source start endd now pg.cards st).1, idx)

/-- Model of `scrape_reviews` (src/scraper.py lines 213-355).  The selector
lookup and the date-range validation happen before any browser interaction,
so the two error results are independent of the page fixture; the crawl
itself starts at `page_index = 1` with no records and the flag clear.
Browser/session management, navigation, anti-bot mitigation and pacing are
external effects with no bearing on the returned data and are not part of
the state. -/
def scrape_reviews (fix : List PageFix) (now : Int)
    (company start_date end_date source : String) :
    Except String (List ReviewRecord × Nat) :=
  match get_selectors source with
  | none => Except.error ("Unsupported source: " ++ source)
  | some sels =>
    match strptime_ymd start_date, strptime_ymd end_date with
    | some start, some endd =>
      if endd < start then Except.error "end_date must be >= start_date"
      else Except.ok (runPages sels source start endd now fix 1 ([], false))
    | _, _ => Except.error "ValueError: strptime"

/-- Per-candidate loop of the review_scraper.py controller
(src/review_scraper.py lines 89-117).  Differences from scraper.py, straight
from the source: a missing date element substitutes `str(datetime.now())`
(which parses back to the current timestamp); `parse_date` never fails,
falling back to the current timestamp; a date before `start` BREAKS out of
the loop immediately; a missing title element yields "No Title"; the rating
is always the literal "N/A".  Returns the grown record list and
`found_old_review`. -/
def rs_processCards (source : String) (start endd now : Int) :
    List Card → List ReviewRecord → List ReviewRecord × Bool
  | [], acc => (acc, false)
  | c :: rest, acc =>
    if c.raises then rs_processCards source start endd now rest acc
    else
      let review_date :=
        match c.dateEl with
        | none => now
        | some _ => parse_date c.dateText now
      if review_date < start then (acc, true)
      else if start ≤ review_date ∧ review_date ≤ endd then
        rs_processCards source start endd now rest (acc ++ [{
          source := source,
          title := if c.titleEl then pyStrip c.titleText else "No Title",
          description := if c.bodyEl then pyStrip c.bodyText else "",
          date := iso_date review_date,
          rating := "N/A" }])
      else rs_processCards source start endd now rest acc

/-- Page loop of src/review_scraper.py lines 80-131: no page-ready wait; an
empty card list ends the crawl; `found_old_review` ends the crawl; otherwise
advance iff the next button exists and is enabled. -/
def rs_runPages (source : String) (start endd now : Int) :
    List PageFix → List ReviewRecord → List ReviewRecord
  | [], acc => acc
  | pg :: rest, acc =>
    if pg.cards.isEmpty then acc
    else
      if (rs_processCards source start endd now pg.cards acc).2 then
        (rs_processCards source start endd now pg.cards acc).1
      else if pg.nextClickable then
        rs_runPages source start endd now rest
          (rs_processCards source start endd now pg.cards acc).1
      else (rs_processCards source start endd now pg.cards acc).1

/-- Model of `scrape_reviews` in src/review_scraper.py (lines 49-135).  The
function performs NO configuration validation: the dates are parsed with no
`end < start` check, the browser is launched and the page navigated
unconditionally, and only then are selectors looked up (a `None` result
crashes at the first subscript, modelled by the error branch; URL
construction for an unknown source is elided). -/
def rs_scrape (fix : List PageFix) (now : Int)
    (company start_date end_date source : String) :
    Except String (List ReviewRecord) :=
  match strptime_ymd start_date, strptime_ymd end_date with
  | some start, some endd =>
    match rs_get_selectors source with
    | none => Except.error "TypeError: selectors is None"
    | some _ => Except.ok (rs_runPages source start endd now fix [])
  | _, _ => Except.error "ValueError: strptime"

deriving instance DecidableEq for Except

/-! Concrete fixtures used by the claim witnesses and counterexamples. -/

/-- A card that sets `old_review_reached` when classified: it does not
raise, its date parses, and the parsed date is strictly before `start`. -/
def cardOld (start now : Int) (c : Card) : Bool :=
  !c.raises &&
    match parse_date_str (date_raw c) now with
    | some dt => decide (dt < start)
    | none => false

/-- A page on which some candidate sets `old_review_reached`. -/
def pageOld (start now : Int) (pg : PageFix) : Bool :=
  pg.cards.any (cardOld start now)

/-- A well-behaved review card whose visible date text is `d`. -/
def sampleCard (d : String) : Card :=
  { dateEl := some none, dateText := d, titleEl := true, titleText := "Great tool",
    bodyEl := true, bodyText := "Works well", ratingRaw := "4.5", raises := false }

/-- The scraper.py selector set for the g2 source. -/
def g2sels : Selectors :=
  (get_selectors "g2").getD ⟨"", "", "", "", none, none⟩

/-- Midnight of 2024-03-01, the range start used by the fixtures. -/
def fxStart : Int := mkDT (daysFromCivil 2024 3 1)

/-- Midnight of 2024-03-10, the range end used by the fixtures. -/
def fxEnd : Int := mkDT (daysFromCivil 2024 3 10)

/-- Single-page fixture with one card dated exactly on the range start and
one dated exactly on the range end. -/
def boundaryFix : List PageFix :=
  [{ cards := [sampleCard "March 1, 2024", sampleCard "March 10, 2024"],
     nextClickable := false, waitTimeout := false }]

/-- The record the scraper emits for the start-boundary card. -/
def boundaryRecStart : ReviewRecord :=
  { source := "g2", title := "Great tool", description := "Works well",
    date := daysFromCivil 2024 3 1, rating := "4.5" }

/-- The record the scraper emits for the end-boundary card. -/
def boundaryRecEnd : ReviewRecord :=
  { source := "g2", title := "Great tool", description := "Works well",
    date := daysFromCivil 2024 3 10, rating := "4.5" }

/-- Three-page fixture realising the end-to-end scenario of the spec: five
in-range cards on page 1, three in-range plus two pre-range cards on page 2,
only pre-range cards on page 3; next button clickable on pages 1-2 only. -/
def e2eFix : List PageFix :=
  [{ cards := [sampleCard "March 25, 2024", sampleCard "March 24, 2024",
               sampleCard "March 23, 2024", sampleCard "March 22, 2024",
               sampleCard "March 21, 2024"],
     nextClickable := true, waitTimeout := false },
   { cards := [sampleCard "March 5, 2024", sampleCard "March 4, 2024",
               sampleCard "March 3, 2024", sampleCard "February 10, 2024",
               sampleCard "February 9, 2024"],
     nextClickable := true, waitTimeout := false },
   { cards := [sampleCard "February 8, 2024", sampleCard "February 7, 2024"],
     nextClickable := false, waitTimeout := false }]

/-- A sample card that raises a Playwright exception mid-processing. -/
def raisingCard : Card :=
  { sampleCard "March 7, 2024" with raises := true }

/-- Single-page fixture whose one candidate is dated by the relative
expression "2 days ago". -/
def relativeFix : List PageFix :=
  [{ cards := [sampleCard "2 days ago"], nextClickable := false,
     waitTimeout := false }]

/-! Helper lemmas about the embedded controller. -/

/-- Taking the calendar day of a timestamp is monotone. -/
theorem iso_date_mono {a b : Int} (h : a ≤ b) : iso_date a ≤ iso_date b :=
  Int.ediv_le_ediv (by norm_num [minutesPerDay]) h

/-- Records in the state after one classification step: either they were
already there, or the step accepted the card with an in-range date. -/
theorem mem_processCard {sels : Selectors} {source : String}
    {start endd now : Int} {st : List ReviewRecord × Bool} {c : Card}
    {r : ReviewRecord}
    (h : r ∈ (processCard sels source start endd now st c).1) :
    r ∈ st.1 ∨ ∃ dt, parse_date_str (date_raw c) now = some dt ∧
      within_range dt start endd ∧ r = buildRecord sels source c dt := by
  unfold processCard at h
  split at h
  · exact Or.inl h
  · split at h
    · exact Or.inl h
    · rename_i dt hdt
      split at h
      · exact Or.inl h
      · split at h
        · rename_i hin
          rcases List.mem_append.mp h with h1 | h1
          · exact Or.inl h1
          · exact Or.inr ⟨dt, hdt, hin, List.mem_singleton.mp h1⟩
        · exact Or.inl h

/-- Records after classifying a whole page: old ones, or accepted in-range
candidates of that page. -/
theorem mem_processCards {sels : Selectors} {source : String}
    {start endd now : Int} {cards : List Card} {st : List ReviewRecord × Bool}
    {r : ReviewRecord}
    (h : r ∈ (processCards sels source start endd now cards st).1) :
    r ∈ st.1 ∨ ∃ c ∈ cards, ∃ dt, parse_date_str (date_raw c) now = some dt ∧
      within_range dt start endd ∧ r = buildRecord sels source c dt := by
  induction cards generalizing st with
  | nil => exact Or.inl h
  | cons c cs ih =>
    rcases ih h with h1 | ⟨c2, hc2, dt, h2⟩
    · rcases mem_processCard h1 with h3 | ⟨dt, h3⟩
      · exact Or.inl h3
      · exact Or.inr ⟨c, List.mem_cons_self c cs, dt, h3⟩
    · exact Or.inr ⟨c2, List.mem_cons_of_mem c hc2, dt, h2⟩

/-- Records in the final crawl output: records already accumulated, or
accepted in-range candidates of some visited page. -/
theorem mem_runPages {sels : Selectors} {source : String}
    {start endd now : Int} {fix : List PageFix} {idx : Nat}
    {st : List ReviewRecord × Bool} {r : ReviewRecord}
    (h : r ∈ (runPages sels source start endd now fix idx st).1) :
    r ∈ st.1 ∨ ∃ pg ∈ fix, ∃ c ∈ pg.cards, ∃ dt,
      parse_date_str (date_raw c) now = some dt ∧
      within_range dt start endd ∧ r = buildRecord sels source c dt := by
  induction fix generalizing idx st with
  | nil => exact Or.inl h
  | cons pg rest ih =>
    unfold runPages at h
    split at h
    · exact Or.inl h
    · split at h
      · exact Or.inl h
      · split at h
        · rcases mem_processCards h with h1 | ⟨c, hc, h2⟩
          · exact Or.inl h1
          · exact Or.inr ⟨pg, List.mem_cons_self pg rest, c, hc, h2⟩
        · split at h
          · rcases ih h with h1 | ⟨pg2, hpg2, h2⟩
            · rcases mem_processCards h1 with h3 | ⟨c, hc, h4⟩
              · exact Or.inl h3
              · exact Or.inr ⟨pg, List.mem_cons_self pg rest, c, hc, h4⟩
            · exact Or.inr ⟨pg2, List.mem_cons_of_mem pg hpg2, h2⟩
          · rcases mem_processCards h with h1 | ⟨c, hc, h2⟩
            · exact Or.inl h1
            · exact Or.inr ⟨pg, List.mem_cons_self pg rest, c, hc, h2⟩

/-- One classification step sets the flag exactly when it was already set or
the card is an older-than-range card. -/
theorem processCard_flag (sels : Selectors) (source : String)
    (start endd now : Int) (st : List ReviewRecord × Bool) (c : Card) :
    (processCard sels source start endd now st c).2 =
      (st.2 || cardOld start now c) := by
  unfold processCard cardOld
  split
  · rename_i hr
    simp [hr]
  · rename_i hr
    split
    · rename_i heq
      simp [hr, heq]
    · rename_i dt heq
      rw [heq]
      split
      · rename_i hlt
        simp [hr, hlt]
      · rename_i hlt
        split <;> simp [hr, hlt]

/-- Page-level version of `processCard_flag`: the flag after a page is the
incoming flag joined with "some card on the page is older than range". -/
theorem processCards_flag (sels : Selectors) (source : String)
    (start endd now : Int) (cards : List Card)
    (st : List ReviewRecord × Bool) :
    (processCards sels source start endd now cards st).2 =
      (st.2 || cards.any (cardOld start now)) := by
  induction cards generalizing st with
  | nil => simp [processCards]
  | cons c cs ih =>
    show (processCards sels source start endd now cs
      (processCard sels source start endd now st c)).2 = _
    rw [ih, processCard_flag]
    simp [Bool.or_assoc]

/-- A raising card is a no-op for the classification state. -/
theorem processCard_raises {sels : Selectors} {source : String}
    {start endd now : Int} {st : List ReviewRecord × Bool} {c : Card}
    (h : c.raises = true) :
    processCard sels source start endd now st c = st := by
  unfold processCard
  simp [h]

/-- A card whose date does not parse is a no-op for the classification
state. -/
theorem processCard_unparseable {sels : Selectors} {source : String}
    {start endd now : Int} {st : List ReviewRecord × Bool} {c : Card}
    (h : parse_date_str (date_raw c) now = none) :
    processCard sels source start endd now st c = st := by
  unfold processCard
  split
  · rfl
  · rw [h]

/-- A card dated strictly after the range end (with a well-formed range) is
a no-op for the classification state. -/
theorem processCard_newer {sels : Selectors} {source : String}
    {start endd now : Int} {st : List ReviewRecord × Bool} {c : Card} {dt : Int}
    (hrange : start ≤ endd)
    (hdt : parse_date_str (date_raw c) now = some dt) (hnew : endd < dt) :
    processCard sels source start endd now st c = st := by
  unfold processCard
  split
  · rfl
  · rw [hdt]
    have h1 : ¬dt < start := by omega
    have h2 : ¬within_range dt start endd := by
      unfold within_range
      omega
    simp [h1, h2]

/-- Classifying a page splits across list concatenation. -/
theorem processCards_append (sels : Selectors) (source : String)
    (start endd now : Int) (l1 l2 : List Card)
    (st : List ReviewRecord × Bool) :
    processCards sels source start endd now (l1 ++ l2) st =
      processCards sels source start endd now l2
        (processCards sels source start endd now l1 st) :=
  List.foldl_append _ _ _ _

/-- The date of a candidate parses independently of the current time as
soon as its raw date text is not a relative expression. -/
theorem parse_date_str_indep {s : String}
    (h : parseRelTokens (tokens s) = none) (n1 n2 : Int) :
    parse_date_str s n1 = parse_date_str s n2 := by
  unfold parse_date_str dateparse
  rw [h]

/-- Classification of a non-relative-dated card does not depend on the
current time. -/
theorem processCard_indep {sels : Selectors} {source : String}
    {start endd : Int} {c : Card}
    (h : parseRelTokens (tokens (date_raw c)) = none) (n1 n2 : Int)
    (st : List ReviewRecord × Bool) :
    processCard sels source start endd n1 st c =
      processCard sels source start endd n2 st c := by
  unfold processCard
  rw [parse_date_str_indep h n1 n2]

/-- Page-level version of `processCard_indep`. -/
theorem processCards_indep {sels : Selectors} {source : String}
    {start endd : Int} {cards : List Card}
    (h : ∀ c ∈ cards, parseRelTokens (tokens (date_raw c)) = none)
    (n1 n2 : Int) (st : List ReviewRecord × Bool) :
    processCards sels source start endd n1 cards st =
      processCards sels source start endd n2 cards st := by
  induction cards generalizing st with
  | nil => rfl
  | cons c cs ih =>
    show processCards sels source start endd n1 cs
        (processCard sels source start endd n1 st c) = _
    rw [processCard_indep (h c (List.mem_cons_self c cs)) n1 n2,
      ih fun c2 hc2 => h c2 (List.mem_cons_of_mem c hc2)]
    rfl

/-- Inversion of a successful `scrape_reviews` run: the configuration
checks passed and the result is the crawl from page 1 with empty state. -/
theorem scrape_reviews_ok {fix : List PageFix} {now : Int}
    {company sd ed source : String} {recs : List ReviewRecord} {idx : Nat}
    (h : scrape_reviews fix now company sd ed source = Except.ok (recs, idx)) :
    ∃ sels start endd, get_selectors source = some sels ∧
      strptime_ymd sd = some start ∧ strptime_ymd ed = some endd ∧
      ¬endd < start ∧
      (recs, idx) = runPages sels source start endd now fix 1 ([], false) := by
  unfold scrape_reviews at h
  split at h
  · simp at h
  · rename_i sels hsels
    split at h
    · rename_i start endd hst hen
      split at h
      · simp at h
      · rename_i hlt
        refine ⟨sels, start, endd, hsels, hst, hen, hlt, ?_⟩
        injection h with h2
        exact h2.symm
    · simp at h

/-- The crawl never advances the page index past the first page carrying an
older-than-range card: if page `k` (0-based) is the first such page, the
final `page_index` is at most `idx + k` where `idx` is the starting index. -/
theorem runPages_stop_aux {sels : Selectors} {source : String}
    {start endd now : Int} :
    ∀ (fix : List PageFix) (idx : Nat) (st : List ReviewRecord × Bool)
      (k : Nat) (pg : PageFix),
      st.2 = false →
      fix.get? k = some pg → pageOld start now pg = true →
      (∀ pg2 ∈ fix.take k, pageOld start now pg2 = false) →
      (runPages sels source start endd now fix idx st).2 ≤ idx + k := by
  intro fix
  induction fix with
  | nil =>
    intro idx st k pg hst hget
    simp at hget
  | cons pg0 rest ih =>
    intro idx st k pg hst hget hold hprev
    cases k with
    | zero =>
      have hpg : pg0 = pg := by
        simpa using hget
      subst hpg
      unfold runPages
      split
      · simp
      · split
        · simp
        · have hflag : (processCards sels source start endd now pg0.cards st).2 = true := by
            rw [processCards_flag, hst]
            simpa [pageOld] using hold
          simp [hflag]
    | succ k2 =>
      have hget2 : rest.get? k2 = some pg := by
        simpa using hget
      have hpg0 : pageOld start now pg0 = false :=
        hprev pg0 (by simp)
      unfold runPages
      split
      · simp
      · split
        · simp
        · have hflag : (processCards sels source start endd now pg0.cards st).2 = false := by
            rw [processCards_flag, hst]
            simpa [pageOld] using hpg0
          rw [hflag]
          simp only [Bool.false_eq_true, if_false]
          split
          · have := ih (idx + 1)
              (processCards sels source start endd now pg0.cards st) k2 pg
              hflag hget2 hold
              (fun pg2 hpg2 => hprev pg2 (by simp [hpg2]))
            omega
          · simp

/-- Crawls from the same fixture differing only in the reference "now"
instant coincide when no candidate carries a relative date expression. -/
theorem runPages_indep {sels : Selectors} {source : String}
    {start endd : Int} (n1 n2 : Int) :
    ∀ (fix : List PageFix) (idx : Nat) (st : List ReviewRecord × Bool),
      (∀ pg ∈ fix, ∀ c ∈ pg.cards, parseRelTokens (tokens (date_raw c)) = none) →
      runPages sels source start endd n1 fix idx st =
        runPages sels source start endd n2 fix idx st := by
  intro fix
  induction fix with
  | nil => intro idx st h; rfl
  | cons pg rest ih =>
    intro idx st h
    unfold runPages
    rw [processCards_indep (fun c hc => h pg (List.mem_cons_self pg rest) c hc) n1 n2 st]
    split
    · rfl
    · split
      · rfl
      · split
        · rfl
        · split
          · exact ih (idx + 1) _
              (fun pg2 hpg2 c hc => h pg2 (List.mem_cons_of_mem pg hpg2) c hc)
          · rfl

/-- C1: every ReviewRecord appended to the output of `scrape_reviews` is
dated within the caller's range inclusively: with `start`/`end` the parsed
range bounds, every output record's calendar date lies between the start
day and the end day. -/
theorem c1_output_dates_within_range
    {fix : List PageFix} {now : Int} {company sd ed source : String}
    {recs : List ReviewRecord} {idx : Nat} {start endd : Int}
    (hst : strptime_ymd sd = some start) (hen : strptime_ymd ed = some endd)
    (hok : scrape_reviews fix now company sd ed source = Except.ok (recs, idx)) :
    ∀ r ∈ recs, iso_date start ≤ r.date ∧ r.date ≤ iso_date endd := by
  intro r hr
  obtain ⟨sels, start2, endd2, hsels, hst2, hen2, hlt, heq⟩ := scrape_reviews_ok hok
  rw [hst] at hst2
  rw [hen] at hen2
  injection hst2 with hst3
  injection hen2 with hen3
  subst hst3
  subst hen3
  have hrec : recs = (runPages sels source start endd now fix 1 ([], false)).1 := by
    rw [← heq]
  rw [hrec] at hr
  rcases mem_runPages hr with h0 | ⟨pg, _, c, _, dt, _, hin, hbuild⟩
  · cases h0
  · rw [hbuild]
    exact ⟨iso_date_mono hin.1, iso_date_mono hin.2⟩

/-- Witness for C1: the boundary scenario.  Cards dated exactly on the range
start and exactly on the range end are both included, and the theorem bounds
the first record's date by the range days. -/
theorem c1_witness :
    scrape_reviews boundaryFix (mkDT (daysFromCivil 2024 4 1)) "slack"
        "2024-03-01" "2024-03-10" "g2" =
      Except.ok ([boundaryRecStart, boundaryRecEnd], 1) ∧
    iso_date fxStart ≤ boundaryRecStart.date ∧
      boundaryRecStart.date ≤ iso_date fxEnd := by
  refine ⟨by decide, ?_⟩
  exact c1_output_dates_within_range
    (show strptime_ymd "2024-03-01" = some fxStart by decide)
    (show strptime_ymd "2024-03-10" = some fxEnd by decide)
    (show scrape_reviews boundaryFix (mkDT (daysFromCivil 2024 4 1)) "slack"
        "2024-03-01" "2024-03-10" "g2" =
      Except.ok ([boundaryRecStart, boundaryRecEnd], 1) by decide)
    boundaryRecStart (by decide)

/-- C9: the rating field of every emitted ReviewRecord is never the empty
string (it is a parsed rating value or the literal fallback "N/A"). -/
theorem c9_rating_never_empty
    {fix : List PageFix} {now : Int} {company sd ed source : String}
    {recs : List ReviewRecord} {idx : Nat}
    (hok : scrape_reviews fix now company sd ed source = Except.ok (recs, idx)) :
    ∀ r ∈ recs, r.rating ≠ "" := by
  intro r hr
  obtain ⟨sels, start, endd, hsels, hst, hen, hlt, heq⟩ := scrape_reviews_ok hok
  have hrec : recs = (runPages sels source start endd now fix 1 ([], false)).1 := by
    rw [← heq]
  rw [hrec] at hr
  rcases mem_runPages hr with h0 | ⟨pg, _, c, _, dt, _, _, hbuild⟩
  · cases h0
  · rw [hbuild]
    show (let r2 := extract_rating_safe sels.rating c
      if r2 = "" then "N/A" else r2) ≠ ""
    dsimp only
    split
    · decide
    · assumption

/-- Witness for C9: a concrete run whose single record carries the parsed
rating "4.5", hence a non-empty rating. -/
theorem c9_witness :
    boundaryRecStart.rating ≠ "" := by
  exact c9_rating_never_empty
    (show scrape_reviews boundaryFix (mkDT (daysFromCivil 2024 4 1)) "slack"
        "2024-03-01" "2024-03-10" "g2" =
      Except.ok ([boundaryRecStart, boundaryRecEnd], 1) by decide)
    boundaryRecStart (by decide)

/-- C4: once a page carries an older-than-range candidate, the crawl
terminates after fully processing that page: if page `k` (0-based) is the
first page with an older-than-range card, the final `page_index` of the
crawl started at page 1 never exceeds `k + 1`, so no later page is fetched
or clicked to. -/
theorem c4_pagination_stops_at_first_old_page
    {sels : Selectors} {source : String} {start endd now : Int}
    {fix : List PageFix} {k : Nat} {pg : PageFix}
    (hget : fix.get? k = some pg) (hold : pageOld start now pg = true)
    (hprev : ∀ pg2 ∈ fix.take k, pageOld start now pg2 = false) :
    (runPages sels source start endd now fix 1 ([], false)).2 ≤ k + 1 := by
  have := @runPages_stop_aux sels source start endd now fix 1 ([], false) k pg
    rfl hget hold hprev
  omega

/-- Witness for C4: on the end-to-end fixture with range
2024-03-01..2024-03-31, the first older-than-range page is page 2 (index 1),
the crawl stops with `page_index ≤ 2`, and exactly 8 records are collected
(page 3 is never reached). -/
theorem c4_witness :
    (runPages g2sels "g2" fxStart (mkDT (daysFromCivil 2024 3 31))
        (mkDT (daysFromCivil 2024 4 1)) e2eFix 1 ([], false)).2 ≤ 2 ∧
    (runPages g2sels "g2" fxStart (mkDT (daysFromCivil 2024 3 31))
        (mkDT (daysFromCivil 2024 4 1)) e2eFix 1 ([], false)).1.length = 8 := by
  constructor
  · exact c4_pagination_stops_at_first_old_page
      (show e2eFix.get? 1 = some (e2eFix.getD 1 ⟨[], false, false⟩) by decide)
      (by decide)
      (by decide)
  · decide

/-- C7: an exception raised while one candidate is processed is recovered at
single-candidate granularity: the failing candidate contributes nothing, and
classifying the page with it is the same as classifying the page without
it — sibling candidates, the accumulated records and the flag consumed by
the page loop are unaffected. -/
theorem c7_candidate_failure_isolated
    (sels : Selectors) (source : String) (start endd now : Int)
    (cs1 : List Card) (c : Card) (cs2 : List Card)
    (st : List ReviewRecord × Bool) (h : c.raises = true) :
    processCards sels source start endd now (cs1 ++ c :: cs2) st =
      processCards sels source start endd now (cs1 ++ cs2) st := by
  rw [processCards_append, processCards_append]
  show processCards sels source start endd now cs2
    (processCard sels source start endd now
      (processCards sels source start endd now cs1 st) c) = _
  rw [processCard_raises h]

/-- Witness for C7: dropping a raising candidate between two good ones
leaves the page result unchanged, and the two siblings are still collected. -/
theorem c7_witness :
    processCards g2sels "g2" fxStart fxEnd 0
        [sampleCard "March 9, 2024", raisingCard, sampleCard "March 2, 2024"]
        ([], false) =
      processCards g2sels "g2" fxStart fxEnd 0
        [sampleCard "March 9, 2024", sampleCard "March 2, 2024"] ([], false) ∧
    (processCards g2sels "g2" fxStart fxEnd 0
        [sampleCard "March 9, 2024", raisingCard, sampleCard "March 2, 2024"]
        ([], false)).1.length = 2 := by
  constructor
  · exact c7_candidate_failure_isolated g2sels "g2" fxStart fxEnd 0
      [sampleCard "March 9, 2024"] raisingCard [sampleCard "March 2, 2024"]
      ([], false) (by decide)
  · decide

/-- C10: a candidate dated strictly after the range end is silently
ignored — given a well-formed range, classifying the page with it equals
classifying the page without it, so no record is produced, the
older-than-range flag is untouched, and pagination proceeds exactly as if
the candidate were absent. -/
theorem c10_newer_than_range_ignored
    (sels : Selectors) (source : String) (start endd now : Int)
    (cs1 : List Card) (c : Card) (cs2 : List Card)
    (st : List ReviewRecord × Bool) (dt : Int)
    (hrange : start ≤ endd)
    (hdt : parse_date_str (date_raw c) now = some dt) (hnew : endd < dt) :
    processCards sels source start endd now (cs1 ++ c :: cs2) st =
      processCards sels source start endd now (cs1 ++ cs2) st := by
  rw [processCards_append, processCards_append]
  show processCards sels source start endd now cs2
    (processCard sels source start endd now
      (processCards sels source start endd now cs1 st) c) = _
  rw [processCard_newer hrange hdt hnew]

/-- Witness for C10: a card dated 2024-03-15, strictly after the range end
2024-03-10, between two in-range cards: the page result is the same as
without it, the flag stays clear, and only the two in-range records exist. -/
theorem c10_witness :
    processCards g2sels "g2" fxStart fxEnd 0
        [sampleCard "March 9, 2024", sampleCard "March 15, 2024",
         sampleCard "March 2, 2024"] ([], false) =
      processCards g2sels "g2" fxStart fxEnd 0
        [sampleCard "March 9, 2024", sampleCard "March 2, 2024"] ([], false) ∧
    (processCards g2sels "g2" fxStart fxEnd 0
        [sampleCard "March 9, 2024", sampleCard "March 15, 2024",
         sampleCard "March 2, 2024"] ([], false)).2 = false := by
  constructor
  · exact c10_newer_than_range_ignored g2sels "g2" fxStart fxEnd 0
      [sampleCard "March 9, 2024"] (sampleCard "March 15, 2024")
      [sampleCard "March 2, 2024"] ([], false)
      (mkDT (daysFromCivil 2024 3 15)) (by decide) (by decide) (by decide)
  · decide

/-- An old (pre-range) card sets the flag and is otherwise a no-op. -/
theorem processCard_old {sels : Selectors} {source : String}
    {start endd now : Int} {st : List ReviewRecord × Bool} {c : Card} {dt : Int}
    (hr : c.raises = false)
    (hdt : parse_date_str (date_raw c) now = some dt) (hlt : dt < start) :
    processCard sels source start endd now st c = (st.1, true) := by
  unfold processCard
  rw [hr]
  simp only [Bool.false_eq_true, if_false]
  rw [hdt]
  simp [hlt]

/-- C2 (amended): in scraper.py, a candidate whose date text is empty or
unparseable is skipped whole — the empty string never parses, and a
candidate whose raw date fails to parse contributes nothing to the records
or to the pagination flag.  (The review_scraper.py variant instead coerces
the failure to the current timestamp; see the counterexample.) -/
theorem c2_amended_skip_on_unparseable :
    (∀ n : Int, parse_date_str "" n = none) ∧
    ∀ (sels : Selectors) (source : String) (start endd now : Int)
      (c : Card) (cs : List Card) (st : List ReviewRecord × Bool),
      parse_date_str (date_raw c) now = none →
      processCards sels source start endd now (c :: cs) st =
        processCards sels source start endd now cs st := by
  constructor
  · intro n
    rfl
  · intro sels source start endd now c cs st h
    show processCards sels source start endd now cs
      (processCard sels source start endd now st c) = _
    rw [processCard_unparseable h]

/-- Witness for C2: dropping an unparseable-dated candidate before an
in-range one leaves the page result unchanged, and no record carries a
fabricated date. -/
theorem c2_witness :
    processCards g2sels "g2" fxStart fxEnd (mkDT (daysFromCivil 2024 3 5))
        [sampleCard "not a date", sampleCard "March 9, 2024"] ([], false) =
      processCards g2sels "g2" fxStart fxEnd (mkDT (daysFromCivil 2024 3 5))
        [sampleCard "March 9, 2024"] ([], false) ∧
    parse_date_str "" 0 = none := by
  constructor
  · exact c2_amended_skip_on_unparseable.2 g2sels "g2" fxStart fxEnd
      (mkDT (daysFromCivil 2024 3 5)) (sampleCard "not a date")
      [sampleCard "March 9, 2024"] ([], false) (by decide)
  · exact c2_amended_skip_on_unparseable.1 0

/-- Counterexample for C2: in the review_scraper.py variant a candidate with
unparseable date text is NOT skipped — `parse_date` silently coerces the
failure to the current timestamp (here 2024-03-05, inside the range
2024-03-01..2024-03-10), and the controller emits a record dated "now". -/
theorem c2_counterexample :
    rs_processCards "g2" fxStart fxEnd (mkDT (daysFromCivil 2024 3 5))
        [sampleCard "not a date"] [] =
      ([{ source := "g2", title := "Great tool", description := "Works well",
          date := daysFromCivil 2024 3 5, rating := "N/A" }], false) := by
  decide

/-- C3 (amended): in scraper.py a candidate dated strictly before the range
start only sets `older_than_range_seen` and classification continues with
every remaining candidate of the page; in review_scraper.py such a candidate
instead breaks out of the per-candidate loop immediately, returning the
records accumulated so far. -/
theorem c3_amended_continue_vs_break :
    (∀ (sels : Selectors) (source : String) (start endd now : Int)
       (c : Card) (cs : List Card) (st : List ReviewRecord × Bool) (dt : Int),
       c.raises = false →
       parse_date_str (date_raw c) now = some dt → dt < start →
       processCards sels source start endd now (c :: cs) st =
         processCards sels source start endd now cs (st.1, true)) ∧
    (∀ (source : String) (start endd now : Int) (c : Card) (cs : List Card)
       (acc : List ReviewRecord) (attr : Option String),
       c.raises = false → c.dateEl = some attr →
       parse_date c.dateText now < start →
       rs_processCards source start endd now (c :: cs) acc = (acc, true)) := by
  constructor
  · intro sels source start endd now c cs st dt hr hdt hlt
    show processCards sels source start endd now cs
      (processCard sels source start endd now st c) = _
    rw [processCard_old hr hdt hlt]
  · intro source start endd now c cs acc attr hr hdel hlt
    unfold rs_processCards
    rw [hr]
    simp only [Bool.false_eq_true, if_false, hdel]
    simp [hlt]

/-- Witness for C3: an in-range card sitting after a pre-range card on the
same page is still collected by the scraper.py loop (the run result is the
in-range record with the flag set), while the review_scraper.py loop
applied to the same sequence stops at the pre-range card. -/
theorem c3_witness :
    processCards g2sels "g2" fxStart fxEnd 0
        [sampleCard "February 10, 2024", sampleCard "March 9, 2024"]
        ([], false) =
      ([{ source := "g2", title := "Great tool", description := "Works well",
          date := daysFromCivil 2024 3 9, rating := "4.5" }], true) ∧
    rs_processCards "g2" fxStart fxEnd 0
        [sampleCard "February 10, 2024", sampleCard "March 9, 2024"] [] =
      ([], true) := by
  constructor
  · rw [c3_amended_continue_vs_break.1 g2sels "g2" fxStart fxEnd 0
      (sampleCard "February 10, 2024") [sampleCard "March 9, 2024"]
      ([], false) (mkDT (daysFromCivil 2024 2 10)) (by decide) (by decide)
      (by decide)]
    decide
  · exact c3_amended_continue_vs_break.2 "g2" fxStart fxEnd 0
      (sampleCard "February 10, 2024") [sampleCard "March 9, 2024"] []
      none (by decide) (by decide) (by decide)

/-- Counterexample for C3: on the review_scraper.py controller the claim
fails — a page holding a pre-range card followed by an in-range card yields
NO records (the loop breaks at the pre-range card), although processing the
in-range card alone would collect it. -/
theorem c3_counterexample :
    rs_processCards "g2" fxStart fxEnd 0
        [sampleCard "February 10, 2024", sampleCard "March 9, 2024"] [] =
      ([], true) ∧
    rs_processCards "g2" fxStart fxEnd 0 [sampleCard "March 9, 2024"] [] =
      ([{ source := "g2", title := "Great tool", description := "Works well",
          date := daysFromCivil 2024 3 9, rating := "N/A" }], false) := by
  decide

/-- C5 (amended): scraper.py validates its configuration before any browser
interaction — an unknown source identifier, or a parsed range with
`end < start`, makes `scrape_reviews` raise a ValueError whose value is
independent of the page content (the fixture is universally quantified and
absent from the error), and no records are produced.  (review_scraper.py
performs no such validation; see the counterexample.) -/
theorem c5_amended_config_errors_fail_fast
    (fix : List PageFix) (now : Int) (company sd ed source : String) :
    (get_selectors source = none →
      scrape_reviews fix now company sd ed source =
        Except.error ("Unsupported source: " ++ source)) ∧
    (∀ sels start endd, get_selectors source = some sels →
      strptime_ymd sd = some start → strptime_ymd ed = some endd →
      endd < start →
      scrape_reviews fix now company sd ed source =
        Except.error "end_date must be >= start_date") := by
  constructor
  · intro h
    unfold scrape_reviews
    rw [h]
  · intro sels start endd h1 h2 h3 h4
    unfold scrape_reviews
    rw [h1, h2, h3]
    simp [h4]

/-- Witness for C5: the unknown source "yelp" and the inverted range
2024-03-10..2024-03-01 each fail fast with the configuration error, on any
fixture (here the boundary fixture, whose pages are never consulted). -/
theorem c5_witness :
    scrape_reviews boundaryFix 0 "slack" "2024-03-01" "2024-03-10" "yelp" =
      Except.error ("Unsupported source: " ++ "yelp") ∧
    scrape_reviews boundaryFix 0 "slack" "2024-03-10" "2024-03-01" "g2" =
      Except.error "end_date must be >= start_date" := by
  constructor
  · exact (c5_amended_config_errors_fail_fast boundaryFix 0 "slack"
      "2024-03-01" "2024-03-10" "yelp").1 (by decide)
  · exact (c5_amended_config_errors_fail_fast boundaryFix 0 "slack"
      "2024-03-10" "2024-03-01" "g2").2 g2sels fxEnd fxStart (by decide)
      (by decide) (by decide) (by decide)

/-- Counterexample for C5: the review_scraper.py variant raises no
configuration error on an inverted range — with end 2024-03-01 strictly
before start 2024-03-10 it still launches the browser, navigates, crawls
the fixture and returns normally with an empty record list. -/
theorem c5_counterexample :
    rs_scrape boundaryFix 0 "slack" "2024-03-10" "2024-03-01" "sourceforge" =
      Except.ok [] ∧
    strptime_ymd "2024-03-01" = some fxStart ∧
    strptime_ymd "2024-03-10" = some fxEnd ∧
    fxStart < fxEnd := by
  decide

/-- C6 (amended): the two normalizers split the spec round-trip examples,
and no single normalizer satisfies all four.  review_scraper.py's
`parse_date` maps "Written on March 3, 2024" to 2024-03-03 but coerces "",
"not a date" and "2 days ago" to the reference now timestamp instead of
absent; scraper.py's `parse_date_str` maps "" and "not a date" to absent
and "2 days ago" (reference now 2024-03-10) to 2024-03-08, but applies no
prefix stripping before delegating to the external library, so
"Written on March 3, 2024" reaches dateparser unstripped and — the
unrecognised word "written" making the parse fail — normalizes to absent,
not 2024-03-03. -/
theorem c6_amended_round_trip : ∀ b : Int,
    parse_date "Written on March 3, 2024" b = mkDT (daysFromCivil 2024 3 3) ∧
    parse_date "" b = b ∧
    parse_date "not a date" b = b ∧
    parse_date "2 days ago" b = b ∧
    parse_date_str "Written on March 3, 2024" b = none ∧
    parse_date_str "" b = none ∧
    parse_date_str "not a date" b = none ∧
    parse_date_str "2 days ago" (mkDT (daysFromCivil 2024 3 10)) =
      some (mkDT (daysFromCivil 2024 3 8)) := by
  intro b
  exact ⟨rfl, rfl, rfl, rfl, rfl, rfl, rfl, by decide⟩

/-- Counterexample for C6: the claim's examples "" → absent and
"not a date" → absent fail on review_scraper.py's normalizer, which returns
the reference now timestamp (2024-03-10) for both — a present value, never
absent. -/
theorem c6_counterexample :
    parse_date "" (mkDT (daysFromCivil 2024 3 10)) =
      mkDT (daysFromCivil 2024 3 10) ∧
    parse_date "not a date" (mkDT (daysFromCivil 2024 3 10)) =
      mkDT (daysFromCivil 2024 3 10) := by
  decide

/-- C8 (amended): two runs of the controller over an identical fixed page
fixture yield the identical ordered output sequence provided they resolve
dates against the same reference instant; in particular, when no candidate
carries a relative date expression the output does not depend on the
reference instant at all.  (With a relative-dated candidate two runs at
different instants can differ; see the counterexample.) -/
theorem c8_amended_determinism
    (fix : List PageFix) (n1 n2 : Int) (company sd ed source : String)
    (h : ∀ pg ∈ fix, ∀ c ∈ pg.cards, parseRelTokens (tokens (date_raw c)) = none) :
    scrape_reviews fix n1 company sd ed source =
      scrape_reviews fix n2 company sd ed source := by
  unfold scrape_reviews
  split
  · rfl
  · split
    · rw [runPages_indep n1 n2 fix 1 ([], false) h]
    · rfl

/-- Witness for C8: the boundary fixture has only absolute date texts, so
runs at 2024-04-01 and 2024-06-01 coincide. -/
theorem c8_witness :
    scrape_reviews boundaryFix (mkDT (daysFromCivil 2024 4 1)) "slack"
        "2024-03-01" "2024-03-10" "g2" =
      scrape_reviews boundaryFix (mkDT (daysFromCivil 2024 6 1)) "slack"
        "2024-03-01" "2024-03-10" "g2" := by
  exact c8_amended_determinism boundaryFix (mkDT (daysFromCivil 2024 4 1))
    (mkDT (daysFromCivil 2024 6 1)) "slack" "2024-03-01" "2024-03-10" "g2"
    (by decide)

/-- Counterexample for C8: on a fixture with a relative date text, two runs
of the controller against the identical fixed page content give different
outputs — run at 2024-03-10 the card resolves to 2024-03-08 (in range,
one record); run at 2024-03-20 it resolves to 2024-03-18 (out of range,
no records). -/
theorem c8_counterexample :
    scrape_reviews relativeFix (mkDT (daysFromCivil 2024 3 10)) "slack"
        "2024-03-01" "2024-03-10" "g2" ≠
      scrape_reviews relativeFix (mkDT (daysFromCivil 2024 3 20)) "slack"
        "2024-03-01" "2024-03-10" "g2" := by
  decide
